import Mathlib

/-!
# Verification of the GPX data model (`src/types.rs`)

Shallow embedding of the GPX in-memory data model and its geometry
derivation functions.  Coordinates are `f64` values that the code only
carries around (no arithmetic is ever performed on them), so they are
modelled by `ℚ`.  A Rust panic (the `unwrap` in `Waypoint::point`) is
modelled by `Option`: `none` is the fatal abort, `some` the normal
return.  `iter().map(f).collect()` over a panicking `f` therefore
becomes `List.mapM` in the `Option` monad, which aborts the whole
computation as soon as one element aborts, exactly like the panic.
-/

/-- Coordinate scalar: stands for Rust `f64`.  The code never computes
with coordinates, it only stores and copies them, so a rational is a
faithful stand-in. -/
def F64 : Type := ℚ

instance : DecidableEq F64 := inferInstanceAs (DecidableEq ℚ)

instance : OfScientific F64 := inferInstanceAs (OfScientific ℚ)

instance : Neg F64 := inferInstanceAs (Neg ℚ)

instance (n : Nat) : OfNat F64 n := inferInstanceAs (OfNat ℚ n)

/-- `geo::Point<f64>`: an x (longitude) / y (latitude) pair. -/
structure Point where
  x : F64
  y : F64
deriving DecidableEq

/-- `chrono::DateTime<Utc>`: an instant in UTC.  Its internals are never
inspected by this code, only stored; seconds-since-epoch suffice. -/
structure DateTime where
  secondsSinceEpoch : Int
deriving DecidableEq

/-- `Link` represents a link to an external resource
(`src/types.rs` lines 218–228). -/
structure Link where
  /-- URL of hyperlink. -/
  href : String
  /-- Text of hyperlink. -/
  text : Option String
  /-- Mime type of content (image/jpeg). -/
  _type : Option String
deriving DecidableEq

/-- `Person` represents a person or organization. -/
structure Person where
  name : Option String
  email : Option String
  link : Option Link
deriving DecidableEq

/-- `Metadata` is information about the GPX file, author, and copyright
restrictions. -/
structure Metadata where
  name : Option String
  description : Option String
  author : Option Person
  links : List Link
  time : Option DateTime
  keywords : Option String
deriving DecidableEq

/-- `Waypoint` represents a waypoint, point of interest, or named
feature on a map (`src/types.rs` lines 132–184). -/
structure Waypoint where
  point : Option Point
  elevation : Option F64
  time : Option DateTime
  name : Option String
  comment : Option String
  description : Option String
  source : Option String
  links : List Link
  symbol : Option String
  _type : Option String
deriving DecidableEq

/-- `TrackSegment` represents a list of track points. -/
structure TrackSegment where
  points : List Waypoint
deriving DecidableEq

/-- `Track` represents an ordered list of points describing a path. -/
structure Track where
  name : Option String
  comment : Option String
  description : Option String
  source : Option String
  links : List Link
  _type : Option String
  segments : List TrackSegment
deriving DecidableEq

/-- `Gpx` is the root element in the XML file. -/
structure Gpx where
  version : String
  metadata : Option Metadata
  tracks : List Track
deriving DecidableEq

/-- `geo::Geometry<f64>` restricted to the variants this code produces:
the tagged union over point, linestring and multi-linestring. -/
inductive Geometry where
  | point : Point → Geometry
  | lineString : List Point → Geometry
  | multiLineString : List (List Point) → Geometry
deriving DecidableEq

/-- `#[derive(Default)] Link`: `String` defaults to `""`, every
`Option` to `None`. -/
def Link.default : Link :=
  { href := "", text := none, _type := none }

/-- `#[derive(Default)] Person`. -/
def Person.default : Person :=
  { name := none, email := none, link := none }

/-- `#[derive(Default)] Metadata`. -/
def Metadata.default : Metadata :=
  { name := none, description := none, author := none, links := [],
    time := none, keywords := none }

/-- `#[derive(Default)] Waypoint`. -/
def Waypoint.default : Waypoint :=
  { point := none, elevation := none, time := none, name := none,
    comment := none, description := none, source := none, links := [],
    symbol := none, _type := none }

/-- `#[derive(Default)] TrackSegment`. -/
def TrackSegment.default : TrackSegment :=
  { points := [] }

/-- `#[derive(Default)] Track`. -/
def Track.default : Track :=
  { name := none, comment := none, description := none, source := none,
    links := [], _type := none, segments := [] }

/-- `#[derive(Default)] Gpx`. -/
def Gpx.default : Gpx :=
  { version := "", metadata := none, tracks := [] }

/-- `Waypoint::point` (`src/types.rs` lines 188–190):
`self.point.unwrap()`.  `unwrap` returns the contained value of a
`Some` and panics on `None`; the panic is the `none` result. -/
def Waypoint.point' (w : Waypoint) : Option Point :=
  match w.point with
  | some p => some p
  | none => none

/-- `TrackSegment::linestring` (`src/types.rs` lines 118–120):
`self.points.iter().map(|wpt| wpt.point()).collect()`.  Mapping the
panicking accessor over the list aborts at the first missing point. -/
def TrackSegment.linestring (s : TrackSegment) : Option (List Point) :=
  s.points.mapM Waypoint.point'

/-- `Track::multilinestring` (`src/types.rs` lines 89–91):
`self.segments.iter().map(|seg| seg.linestring()).collect()`. -/
def Track.multilinestring (t : Track) : Option (List (List Point)) :=
  t.segments.mapM TrackSegment.linestring

/-- `impl ToGeo<f64> for Waypoint`:
`Geometry::Point(self.point())`. -/
def Waypoint.to_geo (w : Waypoint) : Option Geometry :=
  w.point'.map Geometry.point

/-- `impl ToGeo<f64> for TrackSegment`:
`Geometry::LineString(self.linestring())`. -/
def TrackSegment.to_geo (s : TrackSegment) : Option Geometry :=
  s.linestring.map Geometry.lineString

/-- `impl ToGeo<f64> for Track`:
`Geometry::MultiLineString(self.multilinestring())`. -/
def Track.to_geo (t : Track) : Option Geometry :=
  t.multilinestring.map Geometry.multiLineString

/-! ## Helper lemmas about `List.mapM` in the `Option` monad -/

theorem mapM_option_of_map_eq {α β : Type} (f : α → Option β)
    (l : List α) (bs : List β) (h : l.map f = bs.map some) :
    l.mapM f = some bs := by
  rw [← List.mapM'_eq_mapM]
  induction l generalizing bs with
  | nil =>
    cases bs with
    | nil => rfl
    | cons b bs => simp at h
  | cons a l ih =>
    cases bs with
    | nil => simp at h
    | cons b bs =>
      simp only [List.map_cons, List.cons.injEq] at h
      simp [List.mapM'_cons, h.1, ih bs h.2]

theorem mapM_option_none_of_mem {α β : Type} (f : α → Option β)
    (l : List α) (a : α) (ha : a ∈ l) (hfa : f a = none) :
    l.mapM f = none := by
  rw [← List.mapM'_eq_mapM]
  induction l with
  | nil => simp at ha
  | cons x l ih =>
    rcases List.mem_cons.mp ha with h | h
    · subst h
      simp [List.mapM'_cons, hfa]
    · cases hx : f x with
      | none => simp [List.mapM'_cons, hx]
      | some b => simp [List.mapM'_cons, hx, ih h]

theorem mapM_option_length {α β : Type} (f : α → Option β)
    (l : List α) (bs : List β) (h : l.mapM f = some bs) :
    bs.length = l.length := by
  rw [← List.mapM'_eq_mapM] at h
  induction l generalizing bs with
  | nil =>
    simp only [List.mapM'_nil, Option.pure_def, Option.some.injEq] at h
    simp [← h]
  | cons a l ih =>
    cases hfa : f a with
    | none => simp [List.mapM'_cons, hfa] at h
    | some b =>
      simp only [List.mapM'_cons, hfa, Option.pure_def, Option.bind_eq_bind,
        Option.some_bind] at h
      cases hrest : l.mapM' f with
      | none => simp [hrest] at h
      | some cs =>
        simp only [hrest, Option.some_bind, Option.some.injEq] at h
        simp [← h, List.length_cons, ih cs hrest]

/-! ## Concrete entities used by the witnesses and the example scenario -/

/-- A waypoint whose only populated field is its geographic point, as a
parser would build after reading a bare `<trkpt lat=.. lon=..>`. -/
def wptOf (p : Point) : Waypoint :=
  { Waypoint.default with point := some p }

/-- Segment A of the example scenario. -/
def segA : TrackSegment :=
  { points := [wptOf ⟨-122.4, 37.8⟩, wptOf ⟨-122.41, 37.81⟩] }

/-- Segment B of the example scenario. -/
def segB : TrackSegment :=
  { points := [wptOf ⟨-122.42, 37.82⟩] }

/-- The example scenario's track: two segments A and B. -/
def exampleTrack : Track :=
  { Track.default with segments := [segA, segB] }

/-- The example scenario's document: version "1.1", one track. -/
def exampleGpx : Gpx :=
  { version := "1.1", metadata := none, tracks := [exampleTrack] }

/-! ## Claims -/

/-- C1: `Waypoint::point` returns the waypoint's geographic point when
the `point` field is present; when it is absent it aborts fatally (the
`unwrap` panic, modelled by `none`) rather than returning an error value
or a default coordinate such as (0,0). -/
theorem c1_point_accessor (w : Waypoint) :
    (∀ p, w.point = some p → w.point' = some p) ∧
    (w.point = none → w.point' = none) ∧
    (w.point = none → w.point' ≠ some ⟨0, 0⟩) := by
  refine ⟨?_, ?_, ?_⟩
  · intro p hp
    simp [Waypoint.point', hp]
  · intro hp
    simp [Waypoint.point', hp]
  · intro hp
    simp [Waypoint.point', hp]

/-- Witness for C1 at a waypoint holding (1, 2) and at the default
waypoint, whose point is absent. -/
theorem c1_witness :
    (wptOf ⟨1, 2⟩).point' = some ⟨1, 2⟩ ∧ Waypoint.default.point' = none :=
  ⟨(c1_point_accessor (wptOf ⟨1, 2⟩)).1 ⟨1, 2⟩ rfl,
   (c1_point_accessor Waypoint.default).2.1 rfl⟩

/-- C2: for a segment of N waypoints whose accessors yield the points
`ps` one by one (so every point is present), `linestring` returns
exactly `ps`: same length N, original order, nothing altered,
duplicated or dropped. -/
theorem c2_linestring (s : TrackSegment) (ps : List Point)
    (h : s.points.map Waypoint.point' = ps.map some) :
    s.linestring = some ps ∧ ps.length = s.points.length := by
  have h1 := mapM_option_of_map_eq Waypoint.point' s.points ps h
  exact ⟨h1, mapM_option_length Waypoint.point' s.points ps h1⟩

/-- Witness for C2 at a two-point segment. -/
theorem c2_witness :
    ({ points := [wptOf ⟨1, 2⟩, wptOf ⟨3, 4⟩] } : TrackSegment).linestring =
      some [⟨1, 2⟩, ⟨3, 4⟩] ∧
    ([(⟨1, 2⟩ : Point), ⟨3, 4⟩]).length =
      ({ points := [wptOf ⟨1, 2⟩, wptOf ⟨3, 4⟩] } : TrackSegment).points.length :=
  c2_linestring { points := [wptOf ⟨1, 2⟩, wptOf ⟨3, 4⟩] } [⟨1, 2⟩, ⟨3, 4⟩] rfl

/-- C3: for a track of M segments whose linestrings are `ls` one by one,
`multilinestring` returns exactly `ls`: M linestrings, in original
segment order, the j-th being `linestring` of the j-th segment. -/
theorem c3_multilinestring (t : Track) (ls : List (List Point))
    (h : t.segments.map TrackSegment.linestring = ls.map some) :
    t.multilinestring = some ls ∧ ls.length = t.segments.length := by
  have h1 := mapM_option_of_map_eq TrackSegment.linestring t.segments ls h
  exact ⟨h1, mapM_option_length TrackSegment.linestring t.segments ls h1⟩

/-- Witness for C3 at the two-segment example track. -/
theorem c3_witness :
    exampleTrack.multilinestring =
      some [[⟨-122.4, 37.8⟩, ⟨-122.41, 37.81⟩], [⟨-122.42, 37.82⟩]] ∧
    ([[(⟨-122.4, 37.8⟩ : Point), ⟨-122.41, 37.81⟩], [⟨-122.42, 37.82⟩]]).length =
      exampleTrack.segments.length :=
  c3_multilinestring exampleTrack
    [[⟨-122.4, 37.8⟩, ⟨-122.41, 37.81⟩], [⟨-122.42, 37.82⟩]] rfl

/-- C4: every entity type supports default construction (a total
function, no arguments) in which every optional field is absent and
every list field is empty. -/
theorem c4_defaults :
    Gpx.default.metadata = none ∧ Gpx.default.tracks = [] ∧
    Metadata.default.name = none ∧ Metadata.default.description = none ∧
    Metadata.default.author = none ∧ Metadata.default.links = [] ∧
    Metadata.default.time = none ∧ Metadata.default.keywords = none ∧
    Track.default.name = none ∧ Track.default.comment = none ∧
    Track.default.description = none ∧ Track.default.source = none ∧
    Track.default.links = [] ∧ Track.default._type = none ∧
    Track.default.segments = [] ∧
    TrackSegment.default.points = [] ∧
    Waypoint.default.point = none ∧ Waypoint.default.elevation = none ∧
    Waypoint.default.time = none ∧ Waypoint.default.name = none ∧
    Waypoint.default.comment = none ∧ Waypoint.default.description = none ∧
    Waypoint.default.source = none ∧ Waypoint.default.links = [] ∧
    Waypoint.default.symbol = none ∧ Waypoint.default._type = none ∧
    Person.default.name = none ∧ Person.default.email = none ∧
    Person.default.link = none ∧
    Link.default.text = none ∧ Link.default._type = none := by
  repeat constructor

/-- C5: `linestring` and `multilinestring` are pure and deterministic:
two calls on the same unmodified (structurally equal) entity yield
structurally equal results, and the source entity is not mutated (the
functions only read their argument). -/
theorem c5_pure (t t2 : Track) (s s2 : TrackSegment)
    (ht : t = t2) (hs : s = s2) :
    t.multilinestring = t2.multilinestring ∧ s.linestring = s2.linestring := by
  subst ht
  subst hs
  exact ⟨rfl, rfl⟩

/-- Witness for C5 at the example track and segment A. -/
theorem c5_witness :
    exampleTrack.multilinestring = exampleTrack.multilinestring ∧
    segA.linestring = segA.linestring :=
  c5_pure exampleTrack exampleTrack segA segA rfl rfl

/-- C6: the `to_geo` conversions return the tagged variant wrapping the
entity's own projection: `Point` of `point()` for a waypoint with a
present point, `LineString` of `linestring()` for a segment, and
`MultiLineString` of `multilinestring()` for a track. -/
theorem c6_to_geo (w : Waypoint) (p : Point) (s : TrackSegment)
    (l : List Point) (t : Track) (ml : List (List Point))
    (hw : w.point' = some p) (hs : s.linestring = some l)
    (ht : t.multilinestring = some ml) :
    w.to_geo = some (Geometry.point p) ∧
    s.to_geo = some (Geometry.lineString l) ∧
    t.to_geo = some (Geometry.multiLineString ml) := by
  refine ⟨?_, ?_, ?_⟩
  · simp [Waypoint.to_geo, hw]
  · simp [TrackSegment.to_geo, hs]
  · simp [Track.to_geo, ht]

/-- Witness for C6 at a concrete waypoint, segment B and the example
track. -/
theorem c6_witness :
    (wptOf ⟨1, 2⟩).to_geo = some (Geometry.point ⟨1, 2⟩) ∧
    segB.to_geo = some (Geometry.lineString [⟨-122.42, 37.82⟩]) ∧
    exampleTrack.to_geo = some (Geometry.multiLineString
      [[⟨-122.4, 37.8⟩, ⟨-122.41, 37.81⟩], [⟨-122.42, 37.82⟩]]) :=
  c6_to_geo (wptOf ⟨1, 2⟩) ⟨1, 2⟩ segB [⟨-122.42, 37.82⟩] exampleTrack
    [[⟨-122.4, 37.8⟩, ⟨-122.41, 37.81⟩], [⟨-122.42, 37.82⟩]]
    rfl rfl rfl

/-- C7: the example scenario — a version-"1.1" document with one track,
segment A holding (-122.4, 37.8) and (-122.41, 37.81), segment B
holding (-122.42, 37.82) — yields exactly
[[(-122.4, 37.8), (-122.41, 37.81)], [(-122.42, 37.82)]], preserving
insertion order of both segments and points. -/
theorem c7_example :
    exampleGpx.version = "1.1" ∧
    exampleGpx.tracks.map Track.multilinestring =
      [some [[⟨-122.4, 37.8⟩, ⟨-122.41, 37.81⟩], [⟨-122.42, 37.82⟩]]] := by
  exact ⟨rfl, rfl⟩

/-- C8: degenerate cases — a track with zero segments yields the empty
multi-linestring, a segment with zero waypoints yields the empty
linestring, and a segment with exactly one waypoint carrying a present
point yields the one-point linestring. -/
theorem c8_degenerate (t : Track) (s0 s1 : TrackSegment) (w : Waypoint)
    (p : Point) (ht : t.segments = []) (h0 : s0.points = [])
    (h1 : s1.points = [w]) (hw : w.point = some p) :
    t.multilinestring = some [] ∧ s0.linestring = some [] ∧
    s1.linestring = some [p] := by
  refine ⟨?_, ?_, ?_⟩
  · rw [Track.multilinestring, ht]
    rfl
  · rw [TrackSegment.linestring, h0]
    rfl
  · rw [TrackSegment.linestring, h1, ← List.mapM'_eq_mapM]
    simp [List.mapM'_cons, Waypoint.point', hw]

/-- Witness for C8 at the default track, the default segment, and a
one-waypoint segment. -/
theorem c8_witness :
    Track.default.multilinestring = some [] ∧
    TrackSegment.default.linestring = some [] ∧
    ({ points := [wptOf ⟨5, 6⟩] } : TrackSegment).linestring = some [⟨5, 6⟩] :=
  c8_degenerate Track.default TrackSegment.default
    { points := [wptOf ⟨5, 6⟩] } (wptOf ⟨5, 6⟩) ⟨5, 6⟩ rfl rfl rfl rfl

/-- C9: the fatal missing-point abort propagates through every
derivation: a segment containing a waypoint with an absent point makes
`linestring` abort (`none`), and hence any `multilinestring` or
`to_geo` reaching that waypoint aborts too — never a partial or
shortened geometry. -/
theorem c9_panic_propagates (s : TrackSegment) (t : Track) (w : Waypoint)
    (hw : w ∈ s.points) (hnone : w.point = none) (hs : s ∈ t.segments) :
    s.linestring = none ∧ s.to_geo = none ∧
    t.multilinestring = none ∧ t.to_geo = none := by
  have hl : s.linestring = none := by
    apply mapM_option_none_of_mem Waypoint.point' s.points w hw
    simp [Waypoint.point', hnone]
  have hm : t.multilinestring = none :=
    mapM_option_none_of_mem TrackSegment.linestring t.segments s hs hl
  refine ⟨hl, ?_, hm, ?_⟩
  · simp [TrackSegment.to_geo, hl]
  · simp [Track.to_geo, hm]

/-- Witness for C9 at a track whose single segment holds a good waypoint
followed by the default (point-less) waypoint. -/
theorem c9_witness :
    ({ points := [wptOf ⟨1, 2⟩, Waypoint.default] } : TrackSegment).linestring
      = none ∧
    ({ points := [wptOf ⟨1, 2⟩, Waypoint.default] } : TrackSegment).to_geo
      = none ∧
    ({ Track.default with
        segments := [{ points := [wptOf ⟨1, 2⟩, Waypoint.default] }] } :
      Track).multilinestring = none ∧
    ({ Track.default with
        segments := [{ points := [wptOf ⟨1, 2⟩, Waypoint.default] }] } :
      Track).to_geo = none :=
  c9_panic_propagates { points := [wptOf ⟨1, 2⟩, Waypoint.default] }
    { Track.default with
        segments := [{ points := [wptOf ⟨1, 2⟩, Waypoint.default] }] }
    Waypoint.default
    (List.mem_cons_of_mem (wptOf ⟨1, 2⟩) (List.mem_cons_self Waypoint.default []))
    rfl (List.mem_cons_self _ _)

/-- C10: a default-constructed `Link` has `href` equal to the empty
string with text and MIME type absent: the non-empty expectation on the
URL is not enforced at construction, so the empty URL is representable. -/
theorem c10_link_default :
    Link.default.href = "" ∧ Link.default.text = none ∧
    Link.default._type = none :=
  ⟨rfl, rfl, rfl⟩
